import Mathlib

/-!
Shallow embedding of `src/google-recaptcha-provider.tsx` from
react-google-recaptcha-v3: the `GoogleReCaptchaProvider` component, its
mount effect, the registered global load callback, the script load/error
handlers, and `executeRecaptcha`, together with the configuration record
and the dependency list that drives effect re-runs.

JavaScript details carried over faithfully:
- `||` defaults treat the empty string as falsy;
- `JSON.stringify` omits fields whose value is `undefined` and omits
  function-valued fields entirely;
- the truthiness test `container?.element ? "explicit" : reCaptchaKey`
  treats an empty selector string as falsy;
- the promise held in `greCaptchaInstancePromiseRef` resolves at most
  once; later resolve calls are no-ops.
Functions are modelled as opaque identity tokens (`Nat`) so that deep
equality of parameter records is expressible while `JSON.stringify`
drops them.
-/

namespace ReCaptcha

/-- `badge` values accepted by the container render parameters. -/
inductive Badge
  | inline
  | bottomleft
  | bottomright
deriving DecidableEq, Repr

/-- `theme` values accepted by the container render parameters. -/
inductive Theme
  | dark
  | light
deriving DecidableEq, Repr

/-- `appendTo` values accepted by the script options. -/
inductive AppendTo
  | head
  | body
deriving DecidableEq, Repr

/-- `container.element` is `string | HTMLElement`; an `HTMLElement` is
modelled by an identity token. -/
inductive ElementTarget
  | selector (s : String)
  | node (id : Nat)
deriving DecidableEq, Repr

/-- `clientId` is `number | string`: the site key initially, or the numeric
widget handle returned by `grecaptcha.render`. -/
inductive ClientId
  | str (s : String)
  | num (n : Nat)
deriving DecidableEq, Repr

/-- The `scriptProps` record of `IGoogleReCaptchaProviderProps`. -/
structure ScriptProps where
  nonce : Option String
  defer : Option Bool
  async : Option Bool
  appendTo : Option AppendTo
  id : Option String
  onLoadCallbackName : Option String
deriving DecidableEq, Repr

/-- The `container.parameters` record; the three user callbacks are
function values, modelled by identity tokens. -/
structure ContainerParameters where
  badge : Option Badge
  theme : Option Theme
  tabindex : Option Int
  callback : Option Nat
  expiredCallback : Option Nat
  errorCallback : Option Nat
deriving DecidableEq, Repr

/-- The `container` prop: optional mount element plus render parameters. -/
structure ContainerConfig where
  element : Option ElementTarget
  parameters : ContainerParameters
deriving DecidableEq, Repr

/-- The provider props that configure one mount (children are untracked
and omitted). -/
structure Config where
  reCaptchaKey : String
  language : Option String
  useRecaptchaNet : Bool
  useEnterprise : Bool
  scriptProps : Option ScriptProps
  container : Option ContainerConfig
deriving DecidableEq, Repr

/-- The fully merged parameter record passed to `grecaptcha.render`:
`{ badge: "inline", size: "invisible", sitekey: reCaptchaKey,
   ...(container?.parameters || {}) }`. -/
structure RenderParams where
  badge : Badge
  size : String
  sitekey : String
  theme : Option Theme
  tabindex : Option Int
  callback : Option Nat
  expiredCallback : Option Nat
  errorCallback : Option Nat
deriving DecidableEq, Repr

/-- One engine namespace (`window.grecaptcha` or
`window.grecaptcha.enterprise`). `execute` is optional because
`executeRecaptcha` checks `!greCaptchaInstance.execute`; `render` returns
the numeric widget handle. The token produced by `execute` depends on the
widget identifier and the action. -/
structure Engine where
  render : Option ElementTarget → RenderParams → Nat
  execute : Option (ClientId → Option String → String)

/-- The global `window.grecaptcha` object with its standard and
`enterprise` namespaces. -/
structure GrecaptchaGlobal where
  standard : Engine
  enterprise : Engine

/-- Modelled from the spec: `promiseWithResolvers` lives in `src/utils`,
which is not part of the provided sources. Per the spec the deferred
readiness value is created once, has resolve and reject channels, and is
settled at most once: settling an already settled deferred value is a
no-op. -/
inductive LatchState
  | pending
  | resolved (engine : Option Engine)
  | rejected (reason : String)

/-- Settle the deferred value with `resolve(v)`: only effective while
pending. -/
def LatchState.resolve (l : LatchState) (v : Option Engine) : LatchState :=
  match l with
  | .pending => .resolved v
  | l => l

/-- Settle the deferred value with `reject(r)`: only effective while
pending. The provider code never calls this channel. -/
def LatchState.reject (l : LatchState) (r : String) : LatchState :=
  match l with
  | .pending => .rejected r
  | l => l

/-- The script tag injected by `injectGoogleReCaptchaScript`, keeping its
tag id and the `render` URL parameter. -/
structure InjectedScript where
  id : String
  render : String
deriving DecidableEq, Repr

/-- Per-mount state: the deferred readiness value (held in
`greCaptchaInstancePromiseRef`, created once per mount), the widget
identifier cell (`clientId` ref), the global callback slot registered on
`window`, the injected script tag, the rendered widget DOM artifact, the
warnings logged so far, the `grecaptcha.render` calls performed so far,
and the continuation registered with `grecaptcha.ready`. -/
structure MountState where
  latch : LatchState
  clientId : ClientId
  callbackSlot : Option String
  scriptTag : Option InjectedScript
  widgetDom : Bool
  warnings : List String
  renderCalls : List (Option ElementTarget × RenderParams)
  pendingReady : Option Engine

/-- State at the first render of a mount: promise pending, `clientId`
initialized to the site key, nothing registered or injected. -/
def initState (cfg : Config) : MountState :=
  { latch := .pending
    clientId := .str cfg.reCaptchaKey
    callbackSlot := none
    scriptTag := none
    widgetDom := false
    warnings := []
    renderCalls := []
    pendingReady := none }

/-- JavaScript `a || b` for optional strings: the empty string is falsy
and falls through to the default. -/
def jsOrString (o : Option String) (d : String) : String :=
  match o with
  | some s => if s = "" then d else s
  | none => d

/-- `scriptProps?.id || "google-recaptcha-v3"`. -/
def scriptIdOf (cfg : Config) : String :=
  jsOrString (cfg.scriptProps.bind fun sp => sp.id) "google-recaptcha-v3"

/-- `scriptProps?.onLoadCallbackName || "onRecaptchaLoadCallback"`. -/
def onLoadCallbackNameOf (cfg : Config) : String :=
  jsOrString (cfg.scriptProps.bind fun sp => sp.onLoadCallbackName)
    "onRecaptchaLoadCallback"

/-- JavaScript truthiness of `container?.element`: absent is falsy, an
empty selector string is falsy, everything else is truthy. -/
def elementTruthy (e : Option ElementTarget) : Bool :=
  match e with
  | none => false
  | some (.selector s) => s ≠ ""
  | some (.node _) => true

/-- `useEnterprise ? window.grecaptcha.enterprise : window.grecaptcha`. -/
def selectEngine (useEnterprise : Bool) (g : GrecaptchaGlobal) : Engine :=
  if useEnterprise then g.enterprise else g.standard

/-- The merged parameter record built inside the global callback:
`{ badge: "inline", size: "invisible", sitekey: reCaptchaKey,
   ...(container?.parameters || {}) }`. A field present in the supplied
record overrides the default; `size` and `sitekey` have no counterpart in
`ContainerParameters` and always keep their default. -/
def mergeParams (key : String) (p : Option ContainerParameters) : RenderParams :=
  let q := p.getD
    { badge := none, theme := none, tabindex := none
      callback := none, expiredCallback := none, errorCallback := none }
  { badge := q.badge.getD .inline
    size := "invisible"
    sitekey := key
    theme := q.theme
    tabindex := q.tabindex
    callback := q.callback
    expiredCallback := q.expiredCallback
    errorCallback := q.errorCallback }

/-- Warning logged when the site key is missing. -/
def keyNotProvidedWarning : String :=
  "<GoogleReCaptchaProvider /> recaptcha key not provided"

/-- Warning logged when the script loads but `window.grecaptcha` is
absent (`SCRIPT_NOT_AVAILABLE`). -/
def scriptNotAvailableWarning : String :=
  "<GoogleRecaptchaProvider /> Recaptcha script is not available"

/-- Warning logged by the script tag error handler. -/
def scriptLoadErrorWarning : String :=
  "Error loading google recaptcha script"

/-- Error thrown by `executeRecaptcha` when the resolved instance is null
or lacks `execute`. -/
def notLoadedErrorMessage : String :=
  "<GoogleReCaptchaProvider /> Google Recaptcha has not been loaded"

/-- Error thrown by the default context value of `GoogleReCaptchaContext`
when `executeRecaptcha` is called outside any provider mount. -/
def defaultContextErrorMessage : String :=
  "GoogleReCaptcha Context has not yet been implemented, if you are using useGoogleReCaptcha hook, make sure the hook is called inside component wrapped by GoogleRecaptchaProvider"

/-- The body of the mount effect. If the key is empty it logs a warning,
resolves the deferred value to null and returns early: nothing is
registered or injected. Otherwise it stores the global callback under the
configured name and calls `injectGoogleReCaptchaScript` (modelled from
the spec, since `src/utils` is not provided: the injected tag carries the
configured id and a `render` URL parameter that is `"explicit"` when a
truthy mount element is configured and the site key otherwise). -/
def effectSetup (cfg : Config) (s : MountState) : MountState :=
  if cfg.reCaptchaKey = "" then
    { s with
      warnings := s.warnings ++ [keyNotProvidedWarning]
      latch := s.latch.resolve none }
  else
    { s with
      callbackSlot := some (onLoadCallbackNameOf cfg)
      scriptTag := some
        { id := scriptIdOf cfg
          render :=
            if elementTruthy (cfg.container.bind fun c => c.element) then
              "explicit"
            else cfg.reCaptchaKey } }

/-- The global callback stored under `onLoadCallbackName`. It selects the
engine namespace, merges the render parameters and, unconditionally,
runs `clientId.current = grecaptcha.render(container?.element, params)`. -/
def globalCallback (cfg : Config) (g : GrecaptchaGlobal) (s : MountState) :
    MountState :=
  let engine := selectEngine cfg.useEnterprise g
  let elem := cfg.container.bind fun c => c.element
  let params := mergeParams cfg.reCaptchaKey (cfg.container.map fun c => c.parameters)
  { s with
    clientId := .num (engine.render elem params)
    widgetDom := true
    renderCalls := s.renderCalls ++ [(elem, params)] }

/-- The script tag `load` handler. `win` is `window.grecaptcha` (or
`none` when the expected global object is absent). When absent it logs
`SCRIPT_NOT_AVAILABLE` and resolves the deferred value to null; otherwise
it calls `grecaptcha.ready` with a continuation that will resolve the
deferred value to the selected engine. -/
def onLoad (cfg : Config) (win : Option GrecaptchaGlobal) (s : MountState) :
    MountState :=
  match win with
  | none =>
    { s with
      warnings := s.warnings ++ [scriptNotAvailableWarning]
      latch := s.latch.resolve none }
  | some g =>
    { s with pendingReady := some (selectEngine cfg.useEnterprise g) }

/-- The engine fires its ready signal: the continuation registered by
`onLoad` resolves the deferred value to the engine handle. -/
def engineReady (s : MountState) : MountState :=
  match s.pendingReady with
  | some e => { s with latch := s.latch.resolve (some e) }
  | none => s

/-- The script tag `error` handler: logs a warning and resolves the
deferred value to null. -/
def onError (s : MountState) : MountState :=
  { s with
    warnings := s.warnings ++ [scriptLoadErrorWarning]
    latch := s.latch.resolve none }

/-- Modelled from the spec: `cleanGoogleRecaptcha` lives in `src/utils`,
which is not part of the provided sources. Per the spec, `remove`
detaches the injected tag by its id and, only in explicit-render mode
(a mount element was passed), also detaches the rendered widget DOM
artifact. It does not touch the global callback slot. -/
def cleanGoogleRecaptcha (scriptId : String) (element : Option ElementTarget)
    (s : MountState) : MountState :=
  { s with
    scriptTag :=
      if (s.scriptTag.map fun t => t.id) = some scriptId then none
      else s.scriptTag
    widgetDom := if element.isSome then false else s.widgetDom }

/-- The cleanup returned by the mount effect:
`cleanGoogleRecaptcha(scriptId, container?.element)`. When the key was
empty the effect returned early without registering a cleanup, so
teardown is a no-op. -/
def effectCleanup (cfg : Config) (s : MountState) : MountState :=
  if cfg.reCaptchaKey = "" then s
  else cleanGoogleRecaptcha (scriptIdOf cfg) (cfg.container.bind fun c => c.element) s

/-- `executeRecaptcha(action)`: awaits the deferred value (`none` means
the await never settles), then throws the not-loaded error when the
instance is null or lacks `execute`, and otherwise returns
`greCaptchaInstance.execute(clientId.current, { action })` unchanged. -/
def executeRecaptcha (s : MountState) (action : Option String) :
    Option (Except String String) :=
  match s.latch with
  | .pending => none
  | .rejected r => some (.error r)
  | .resolved none => some (.error notLoadedErrorMessage)
  | .resolved (some e) =>
    match e.execute with
    | none => some (.error notLoadedErrorMessage)
    | some f => some (.ok (f s.clientId action))

/-- The value a caller awaiting the deferred value observes once it is
resolved with `w`, for widget identifier `cid` and action `a`. -/
def awaitedResult (w : Option Engine) (cid : ClientId) (a : Option String) :
    Except String String :=
  match w with
  | none => .error notLoadedErrorMessage
  | some e =>
    match e.execute with
    | none => .error notLoadedErrorMessage
    | some f => .ok (f cid a)

/-- `executeRecaptcha` of the default context value: throws the
descriptive configuration error synchronously. -/
def defaultExecuteRecaptcha (_action : Option String) : Except String String :=
  .error defaultContextErrorMessage

/-- The full successful lifetime of a mount: effect setup, script parsed
(global callback fires), load handler with `window.grecaptcha = some g`,
then the engine ready signal. -/
def loadedState (cfg : Config) (g : GrecaptchaGlobal) : MountState :=
  engineReady (onLoad cfg (some g) (globalCallback cfg g (effectSetup cfg (initState cfg))))

/-- An effect re-run after a dependency change: cleanup with the previous
configuration, then a fresh setup, global callback, successful load and
ready signal under the new configuration. The deferred value in the ref
is carried over, never recreated. -/
def rerunLoadedState (oldCfg cfg : Config) (g : GrecaptchaGlobal)
    (s : MountState) : MountState :=
  engineReady (onLoad cfg (some g) (globalCallback cfg g (effectSetup cfg (effectCleanup oldCfg s))))

/-- Render a string as a JSON string literal (the strings appearing in
this model need no escaping). -/
def jsonStringValue (s : String) : String :=
  "\"" ++ s ++ "\""

/-- Render a boolean as JSON. -/
def jsonBoolValue (b : Bool) : String :=
  cond b "true" "false"

/-- Serialize `Badge` the way the string union serializes. -/
def badgeText : Badge → String
  | .inline => "inline"
  | .bottomleft => "bottomleft"
  | .bottomright => "bottomright"

/-- Serialize `Theme` the way the string union serializes. -/
def themeText : Theme → String
  | .dark => "dark"
  | .light => "light"

/-- Serialize `AppendTo` the way the string union serializes. -/
def appendToText : AppendTo → String
  | .head => "head"
  | .body => "body"

/-- Assemble a JSON object from the fields that survive serialization
(present, non-function values), in declaration order. -/
def jsonObjectOfFields (fs : List (Option (String × String))) : String :=
  "\x7b" ++
    String.intercalate ","
      ((fs.filterMap id).map fun f => jsonStringValue f.1 ++ ":" ++ f.2) ++
  "\x7d"

/-- `JSON.stringify(scriptProps)` for a present record: fields holding
`undefined` are omitted. -/
def stringifyScriptProps (sp : ScriptProps) : String :=
  jsonObjectOfFields
    [ sp.nonce.map fun v => ("nonce", jsonStringValue v)
    , sp.defer.map fun v => ("defer", jsonBoolValue v)
    , sp.async.map fun v => ("async", jsonBoolValue v)
    , sp.appendTo.map fun v => ("appendTo", jsonStringValue (appendToText v))
    , sp.id.map fun v => ("id", jsonStringValue v)
    , sp.onLoadCallbackName.map fun v => ("onLoadCallbackName", jsonStringValue v) ]

/-- `JSON.stringify(container.parameters)`: fields holding `undefined`
are omitted, and the three function-valued callback fields are always
omitted because `JSON.stringify` drops function values. -/
def stringifyParameters (p : ContainerParameters) : String :=
  jsonObjectOfFields
    [ p.badge.map fun v => ("badge", jsonStringValue (badgeText v))
    , p.theme.map fun v => ("theme", jsonStringValue (themeText v))
    , p.tabindex.map fun v => ("tabindex", toString v) ]

/-- `const scriptPropsJson = JSON.stringify(scriptProps)`;
`JSON.stringify(undefined)` is `undefined`. -/
def scriptPropsJson (cfg : Config) : Option String :=
  cfg.scriptProps.map stringifyScriptProps

/-- `const parametersJson = JSON.stringify(container?.parameters)`. -/
def parametersJson (cfg : Config) : Option String :=
  cfg.container.map fun c => stringifyParameters c.parameters

/-- The dependency list of the mount effect:
`[useEnterprise, useRecaptchaNet, scriptPropsJson, parametersJson,
  language, reCaptchaKey, container?.element]`. -/
structure EffectDeps where
  useEnterprise : Bool
  useRecaptchaNet : Bool
  scriptPropsJson : Option String
  parametersJson : Option String
  language : Option String
  reCaptchaKey : String
  containerElement : Option ElementTarget
deriving DecidableEq, Repr

/-- Compute the dependency list from a configuration. -/
def depsOf (cfg : Config) : EffectDeps :=
  { useEnterprise := cfg.useEnterprise
    useRecaptchaNet := cfg.useRecaptchaNet
    scriptPropsJson := scriptPropsJson cfg
    parametersJson := parametersJson cfg
    language := cfg.language
    reCaptchaKey := cfg.reCaptchaKey
    containerElement := cfg.container.bind fun c => c.element }

/-- Effect lifecycle actions observable across a re-render. -/
inductive EffectAction
  | teardown
  | inject
deriving DecidableEq, Repr

/-- What a re-render from configuration `old` to configuration `next`
does: nothing when every dependency compares equal; otherwise the
previous cleanup runs (when one was registered, i.e. the old key was
non-empty) and then the effect body runs again, injecting a fresh script
exactly when the new key is non-empty. -/
def rerunActions (old next : Config) : List EffectAction :=
  if depsOf old = depsOf next then []
  else
    (if old.reCaptchaKey = "" then [] else [.teardown]) ++
    (if next.reCaptchaKey = "" then [] else [.inject])

/-! Concrete fixtures used by witnesses and counterexamples. -/

/-- A parameter record with every field absent. -/
def emptyParameters : ContainerParameters :=
  { badge := none, theme := none, tabindex := none
    callback := none, expiredCallback := none, errorCallback := none }

/-- A token function that records which widget identifier and action the
engine received. -/
def demoToken : ClientId → Option String → String :=
  fun cid a =>
    (match cid with
     | .str s => "sitekey-" ++ s
     | .num n => "widget-" ++ toString n) ++ "-" ++ a.getD "noaction"

/-- An engine whose render call returns widget handle 7. -/
def demoEngine : Engine :=
  { render := fun _ _ => 7, execute := some demoToken }

/-- A `window.grecaptcha` with both namespaces present. -/
def demoGlobal : GrecaptchaGlobal :=
  { standard := demoEngine, enterprise := demoEngine }

/-- Implicit-mode configuration: key present, no container. -/
def cfgImplicit : Config :=
  { reCaptchaKey := "abc", language := none, useRecaptchaNet := false
    useEnterprise := false, scriptProps := none, container := none }

/-- Explicit-mode configuration: key present, container element `#box`. -/
def cfgBox : Config :=
  { reCaptchaKey := "abc", language := none, useRecaptchaNet := false
    useEnterprise := false, scriptProps := none
    container := some { element := some (.selector "#box"), parameters := emptyParameters } }

/-- Configuration with an empty site key. -/
def cfgEmpty : Config :=
  { reCaptchaKey := "", language := none, useRecaptchaNet := false
    useEnterprise := false, scriptProps := none, container := none }

/-- Like `cfgImplicit` but with a language set (a tracked scalar change). -/
def cfgLangEn : Config :=
  { reCaptchaKey := "abc", language := some "en", useRecaptchaNet := false
    useEnterprise := false, scriptProps := none, container := none }

/-- Explicit-mode configuration whose parameters carry callback token 0. -/
def cfgCb0 : Config :=
  { reCaptchaKey := "abc", language := none, useRecaptchaNet := false
    useEnterprise := false, scriptProps := none
    container := some { element := some (.selector "#box")
                        parameters := { emptyParameters with callback := some 0 } } }

/-- Like `cfgCb0` but with callback token 1: deep equality distinguishes
the two records, `JSON.stringify` does not. -/
def cfgCb1 : Config :=
  { reCaptchaKey := "abc", language := none, useRecaptchaNet := false
    useEnterprise := false, scriptProps := none
    container := some { element := some (.selector "#box")
                        parameters := { emptyParameters with callback := some 1 } } }

/-- A parameter record with badge, theme, tabindex and a callback set. -/
def paramsFull : ContainerParameters :=
  { badge := some .bottomright, theme := some .dark, tabindex := some 2
    callback := some 5, expiredCallback := none, errorCallback := none }

/-! Helper lemmas. -/

/-- Equal dependency lists mean the effect does not re-run. -/
theorem rerun_eq_nil_of_deps (old next : Config)
    (h : depsOf old = depsOf next) : rerunActions old next = [] := by
  simp [rerunActions, h]

/-- Once resolved, the deferred value absorbs every later resolve call. -/
theorem foldl_resolve_resolved (w : Option Engine) (vs : List (Option Engine)) :
    vs.foldl LatchState.resolve (.resolved w) = .resolved w := by
  induction vs with
  | nil => rfl
  | cons v vs ih => simpa [LatchState.resolve] using ih

/-! Claim theorems. -/

/-- Claim C2: for every configuration with a non-empty site key where the
load handler fires with the engine object present on the global scope and
the ready signal fires, `executeRecaptcha action` resolves to exactly the
value returned by the engine execute call invoked with the current widget
identifier and the action, returned unchanged. -/
theorem execute_returns_engine_token
    (cfg : Config) (g : GrecaptchaGlobal)
    (f : ClientId → Option String → String) (a : Option String)
    (hkey : cfg.reCaptchaKey ≠ "")
    (hex : (selectEngine cfg.useEnterprise g).execute = some f) :
    executeRecaptcha (loadedState cfg g) a =
      some (.ok (f (loadedState cfg g).clientId a)) := by
  simp [loadedState, engineReady, onLoad, globalCallback, effectSetup,
    initState, hkey, executeRecaptcha, hex, LatchState.resolve]

/-- Witness for C2 at the implicit-mode configuration: the token carries
the widget handle 7 assigned by render and the requested action. -/
theorem execute_returns_engine_token_witness :
    executeRecaptcha (loadedState cfgImplicit demoGlobal) (some "signup") =
      some (.ok (demoToken (loadedState cfgImplicit demoGlobal).clientId (some "signup"))) :=
  execute_returns_engine_token cfgImplicit demoGlobal demoToken (some "signup")
    (by decide) rfl

/-- Claim C3: with an empty site key the mount effect logs the warning,
registers nothing, injects no script, resolves the deferred value to
null, and every `executeRecaptcha` call rejects with the not-loaded
error. -/
theorem missing_key_unavailable
    (cfg : Config) (a : Option String) (hkey : cfg.reCaptchaKey = "") :
    (effectSetup cfg (initState cfg)).warnings = [keyNotProvidedWarning] ∧
    (effectSetup cfg (initState cfg)).scriptTag = none ∧
    (effectSetup cfg (initState cfg)).callbackSlot = none ∧
    (effectSetup cfg (initState cfg)).latch = .resolved none ∧
    executeRecaptcha (effectSetup cfg (initState cfg)) a =
      some (.error notLoadedErrorMessage) := by
  simp [effectSetup, initState, hkey, LatchState.resolve, executeRecaptcha]

/-- Witness for C3 at the empty-key configuration. -/
theorem missing_key_unavailable_witness :
    (effectSetup cfgEmpty (initState cfgEmpty)).warnings = [keyNotProvidedWarning] ∧
    (effectSetup cfgEmpty (initState cfgEmpty)).scriptTag = none ∧
    (effectSetup cfgEmpty (initState cfgEmpty)).callbackSlot = none ∧
    (effectSetup cfgEmpty (initState cfgEmpty)).latch = .resolved none ∧
    executeRecaptcha (effectSetup cfgEmpty (initState cfgEmpty)) none =
      some (.error notLoadedErrorMessage) :=
  missing_key_unavailable cfgEmpty none rfl

/-- Claim C8: the deferred value is resolved at most once, by whichever
resolver fires first; re-resolving is a no-op; and every caller awaiting
a resolved latch observes the same single terminal value, determined by
that resolution and the widget identifier. -/
theorem latch_resolves_once :
    (∀ (l : LatchState) (v : Option Engine), l ≠ .pending → l.resolve v = l) ∧
    (∀ (first : Option Engine) (rest : List (Option Engine)),
      rest.foldl LatchState.resolve (LatchState.pending.resolve first) =
        .resolved first) ∧
    (∀ (s : MountState) (w : Option Engine) (a : Option String),
      s.latch = .resolved w →
      executeRecaptcha s a = some (awaitedResult w s.clientId a)) := by
  refine ⟨?_, ?_, ?_⟩
  · intro l v h
    cases l with
    | pending => exact absurd rfl h
    | resolved w => rfl
    | rejected r => rfl
  · intro first rest
    simpa [LatchState.resolve] using foldl_resolve_resolved first rest
  · intro s w a h
    cases w with
    | none => simp [executeRecaptcha, awaitedResult, h]
    | some e =>
      cases hex : e.execute <;>
        simp [executeRecaptcha, awaitedResult, h, hex]

/-- Witness for C8: re-resolving a settled latch is a no-op, and a caller
awaiting the empty-key mount observes the null resolution. -/
theorem latch_resolves_once_witness :
    LatchState.resolve (.resolved none) (some demoEngine) = .resolved none ∧
    executeRecaptcha (effectSetup cfgEmpty (initState cfgEmpty)) none =
      some (awaitedResult none (.str "") none) :=
  ⟨latch_resolves_once.1 _ _ (by simp),
   latch_resolves_once.2.2 _ none none rfl⟩

/-- Claim C9: outside any mount the default context value fails
immediately with the descriptive configuration error, and inside a mount
whose deferred value resolved to null the operation rejects with the
not-loaded error rather than merely logging. -/
theorem misuse_surfaced_as_error :
    (∀ a, defaultExecuteRecaptcha a = .error defaultContextErrorMessage) ∧
    (∀ (s : MountState) (a : Option String), s.latch = .resolved none →
      executeRecaptcha s a = some (.error notLoadedErrorMessage)) := by
  refine ⟨fun a => rfl, ?_⟩
  intro s a h
  simp [executeRecaptcha, h]

/-- Witness for C9 at concrete inputs. -/
theorem misuse_surfaced_as_error_witness :
    defaultExecuteRecaptcha none = .error defaultContextErrorMessage ∧
    executeRecaptcha (effectSetup cfgEmpty (initState cfgEmpty)) none =
      some (.error notLoadedErrorMessage) :=
  ⟨misuse_surfaced_as_error.1 none,
   misuse_surfaced_as_error.2 _ none rfl⟩

/-- Claim C10: the parameters passed to render are the defaults
badge inline, size invisible, sitekey the configured key, with any
caller-supplied field overriding its default; the enterprise namespace is
selected exactly when the enterprise flag is set; and the global callback
uses exactly these merged parameters. -/
theorem render_params_merge_and_namespace :
    (∀ (key : String) (p : ContainerParameters) (b : Badge),
      p.badge = some b → (mergeParams key (some p)).badge = b) ∧
    (∀ (key : String) (p : ContainerParameters),
      p.badge = none → (mergeParams key (some p)).badge = .inline) ∧
    (∀ (key : String) (p : ContainerParameters),
      (mergeParams key (some p)).size = "invisible" ∧
      (mergeParams key (some p)).sitekey = key ∧
      (mergeParams key (some p)).theme = p.theme ∧
      (mergeParams key (some p)).tabindex = p.tabindex ∧
      (mergeParams key (some p)).callback = p.callback) ∧
    (∀ key : String, mergeParams key none =
      { badge := .inline, size := "invisible", sitekey := key
        theme := none, tabindex := none, callback := none
        expiredCallback := none, errorCallback := none }) ∧
    (∀ g : GrecaptchaGlobal,
      selectEngine true g = g.enterprise ∧ selectEngine false g = g.standard) ∧
    (∀ (cfg : Config) (g : GrecaptchaGlobal) (s : MountState),
      (globalCallback cfg g s).renderCalls =
        s.renderCalls ++ [(cfg.container.bind fun c => c.element,
          mergeParams cfg.reCaptchaKey (cfg.container.map fun c => c.parameters))]) := by
  refine ⟨?_, ?_, ?_, ?_, ?_, ?_⟩
  · intro key p b h
    simp [mergeParams, h]
  · intro key p h
    simp [mergeParams, h]
  · intro key p
    refine ⟨rfl, rfl, rfl, rfl, rfl⟩
  · intro key
    rfl
  · intro g
    exact ⟨rfl, rfl⟩
  · intro cfg g s
    rfl

/-- Witness for C10 at concrete inputs: the supplied badge overrides the
default, sitekey is the configured key, and the enterprise namespace is
picked when the flag is set. -/
theorem render_params_merge_and_namespace_witness :
    (mergeParams "abc" (some paramsFull)).badge = .bottomright ∧
    (mergeParams "abc" (some paramsFull)).sitekey = "abc" ∧
    selectEngine true demoGlobal = demoGlobal.enterprise :=
  ⟨render_params_merge_and_namespace.1 "abc" paramsFull _ rfl,
   (render_params_merge_and_namespace.2.2.1 "abc" paramsFull).2.1,
   (render_params_merge_and_namespace.2.2.2.2.1 demoGlobal).1⟩

/-- Claim C1, counterexample: in implicit mode (no container element)
the global callback nevertheless performs a render call and overwrites
the widget identifier cell with the returned handle, so a subsequent
`executeRecaptcha` passes the handle, not the site key, to the engine:
with key abc and an engine whose render returns 7, after the callback the
identifier is the numeric handle 7 and the token reports widget-7, not
sitekey-abc. -/
theorem implicit_mode_render_counterexample :
    (loadedState cfgImplicit demoGlobal).renderCalls ≠ [] ∧
    (loadedState cfgImplicit demoGlobal).clientId ≠ .str "abc" ∧
    (loadedState cfgImplicit demoGlobal).clientId = .num 7 ∧
    executeRecaptcha (loadedState cfgImplicit demoGlobal) (some "login") =
      some (.ok "widget-7-login") := by
  refine ⟨by decide, by decide, by decide, rfl⟩

/-- Claim C1 as amended: the global callback always performs exactly one
render call — passing the configured mount element, absent in implicit
mode — and always overwrites the widget identifier cell with the handle
render returns; a subsequent `executeRecaptcha` passes that handle to the
engine execute call. -/
theorem global_callback_always_renders
    (cfg : Config) (g : GrecaptchaGlobal) (a : Option String)
    (f : ClientId → Option String → String)
    (hkey : cfg.reCaptchaKey ≠ "")
    (hex : (selectEngine cfg.useEnterprise g).execute = some f) :
    (loadedState cfg g).renderCalls =
      [(cfg.container.bind fun c => c.element,
        mergeParams cfg.reCaptchaKey (cfg.container.map fun c => c.parameters))] ∧
    (loadedState cfg g).clientId =
      .num ((selectEngine cfg.useEnterprise g).render
        (cfg.container.bind fun c => c.element)
        (mergeParams cfg.reCaptchaKey (cfg.container.map fun c => c.parameters))) ∧
    executeRecaptcha (loadedState cfg g) a =
      some (.ok (f (.num ((selectEngine cfg.useEnterprise g).render
        (cfg.container.bind fun c => c.element)
        (mergeParams cfg.reCaptchaKey (cfg.container.map fun c => c.parameters)))) a)) := by
  refine ⟨?_, ?_, ?_⟩ <;>
    simp [loadedState, engineReady, onLoad, globalCallback, effectSetup,
      initState, hkey, executeRecaptcha, hex, LatchState.resolve]

/-- Witness for the amended C1 at the implicit-mode configuration. -/
theorem global_callback_always_renders_witness :
    (loadedState cfgImplicit demoGlobal).renderCalls =
      [(cfgImplicit.container.bind fun c => c.element,
        mergeParams cfgImplicit.reCaptchaKey (cfgImplicit.container.map fun c => c.parameters))] ∧
    (loadedState cfgImplicit demoGlobal).clientId =
      .num ((selectEngine cfgImplicit.useEnterprise demoGlobal).render
        (cfgImplicit.container.bind fun c => c.element)
        (mergeParams cfgImplicit.reCaptchaKey (cfgImplicit.container.map fun c => c.parameters))) ∧
    executeRecaptcha (loadedState cfgImplicit demoGlobal) (some "login") =
      some (.ok (demoToken (.num ((selectEngine cfgImplicit.useEnterprise demoGlobal).render
        (cfgImplicit.container.bind fun c => c.element)
        (mergeParams cfgImplicit.reCaptchaKey (cfgImplicit.container.map fun c => c.parameters))))
        (some "login"))) :=
  global_callback_always_renders cfgImplicit demoGlobal (some "login") demoToken
    (by decide) rfl

/-- Claim C4: when the script error handler fires, or the load handler
fires with no engine object on the global scope, exactly one warning is
logged and the deferred value resolves to null — it is never rejected —
and a subsequent `executeRecaptcha` rejects with the not-loaded error. -/
theorem load_failure_resolves_null
    (cfg : Config) (s : MountState) (a : Option String)
    (hl : s.latch = .pending) (hw : s.warnings = []) :
    ((onError s).warnings.length = 1 ∧
     (onError s).latch = .resolved none ∧
     (∀ r, (onError s).latch ≠ .rejected r) ∧
     executeRecaptcha (onError s) a = some (.error notLoadedErrorMessage)) ∧
    ((onLoad cfg none s).warnings.length = 1 ∧
     (onLoad cfg none s).latch = .resolved none ∧
     (∀ r, (onLoad cfg none s).latch ≠ .rejected r) ∧
     executeRecaptcha (onLoad cfg none s) a = some (.error notLoadedErrorMessage)) := by
  refine ⟨⟨?_, ?_, ?_, ?_⟩, ⟨?_, ?_, ?_, ?_⟩⟩ <;>
    simp [onError, onLoad, hl, hw, LatchState.resolve, executeRecaptcha]

/-- Witness for C4: the error handler fired on the freshly mounted
implicit configuration. -/
theorem load_failure_resolves_null_witness :
    (onError (initState cfgImplicit)).warnings.length = 1 ∧
    (onError (initState cfgImplicit)).latch = .resolved none ∧
    executeRecaptcha (onError (initState cfgImplicit)) none =
      some (.error notLoadedErrorMessage) :=
  ⟨(load_failure_resolves_null cfgImplicit (initState cfgImplicit) none rfl rfl).1.1,
   (load_failure_resolves_null cfgImplicit (initState cfgImplicit) none rfl rfl).1.2.1,
   (load_failure_resolves_null cfgImplicit (initState cfgImplicit) none rfl rfl).1.2.2.2⟩

/-- Claim C5, counterexample: tearing down a mounted implicit
configuration removes the injected script tag but leaves the global
callback slot registered under the configured name — the slot is not
cleared, so a stale entry remains. -/
theorem teardown_retains_callback_slot :
    (effectCleanup cfgImplicit (effectSetup cfgImplicit (initState cfgImplicit))).scriptTag
      = none ∧
    (effectCleanup cfgImplicit (effectSetup cfgImplicit (initState cfgImplicit))).callbackSlot
      = some "onRecaptchaLoadCallback" := by
  exact ⟨by decide, by decide⟩

/-- Claim C5 as amended: on teardown of a mount whose key was non-empty,
the injected script tag (matched by its id) is removed, and in explicit
mode the widget DOM artifact is removed, but the global callback slot is
left untouched: it is only ever overwritten by the next registration. -/
theorem teardown_removes_script_not_slot
    (cfg : Config) (s : MountState) (hkey : cfg.reCaptchaKey ≠ "") :
    (effectCleanup cfg s).callbackSlot = s.callbackSlot ∧
    ((s.scriptTag.map fun t => t.id) = some (scriptIdOf cfg) →
      (effectCleanup cfg s).scriptTag = none) ∧
    ((cfg.container.bind fun c => c.element).isSome = true →
      (effectCleanup cfg s).widgetDom = false) := by
  refine ⟨?_, ?_, ?_⟩
  · simp [effectCleanup, cleanGoogleRecaptcha, hkey]
  · intro h
    simp [effectCleanup, cleanGoogleRecaptcha, hkey, h]
  · intro h
    simp [effectCleanup, cleanGoogleRecaptcha, hkey, h]

/-- Witness for the amended C5 at the explicit-mode configuration. -/
theorem teardown_removes_script_not_slot_witness :
    (effectCleanup cfgBox (effectSetup cfgBox (initState cfgBox))).callbackSlot =
      (effectSetup cfgBox (initState cfgBox)).callbackSlot ∧
    (effectCleanup cfgBox (effectSetup cfgBox (initState cfgBox))).scriptTag = none ∧
    (effectCleanup cfgBox (effectSetup cfgBox (initState cfgBox))).widgetDom = false :=
  ⟨(teardown_removes_script_not_slot cfgBox _ (by decide)).1,
   (teardown_removes_script_not_slot cfgBox _ (by decide)).2.1 (by decide),
   (teardown_removes_script_not_slot cfgBox _ (by decide)).2.2 (by decide)⟩

/-- Claim C6, counterexample: the two configurations differ only in the
container parameter callback (a tracked configuration field under deep
equality), yet `JSON.stringify` drops function-valued fields, so the
dependency list is unchanged and no teardown or injection is triggered at
all. -/
theorem callback_change_no_restart :
    cfgCb0.container ≠ cfgCb1.container ∧
    depsOf cfgCb0 = depsOf cfgCb1 ∧
    rerunActions cfgCb0 cfgCb1 = [] := by
  exact ⟨by decide, by decide, by decide⟩

/-- Claim C6 as amended: a teardown-and-fresh-injection cycle is
triggered exactly when the serialized dependency list changes: equal
dependency lists trigger nothing; parameter records equal on their
JSON-visible fields (badge, theme, tabindex) trigger nothing even when
their callback fields differ; and a change to a serialization-visible
tracked field between two non-empty-key configurations triggers exactly
one teardown followed by exactly one fresh injection. -/
theorem restart_iff_serialized_deps_change :
    (∀ old next : Config, depsOf old = depsOf next → rerunActions old next = []) ∧
    (∀ (cfg : Config) (p q : ContainerParameters),
      p.badge = q.badge → p.theme = q.theme → p.tabindex = q.tabindex →
      rerunActions
        { cfg with container := cfg.container.map fun c => { c with parameters := p } }
        { cfg with container := cfg.container.map fun c => { c with parameters := q } }
        = []) ∧
    (∀ old next : Config, old.reCaptchaKey ≠ "" → next.reCaptchaKey ≠ "" →
      depsOf old ≠ depsOf next →
      rerunActions old next = [.teardown, .inject]) := by
  refine ⟨?_, ?_, ?_⟩
  · exact rerun_eq_nil_of_deps
  · intro cfg p q h1 h2 h3
    apply rerun_eq_nil_of_deps
    cases hc : cfg.container with
    | none => simp [depsOf, parametersJson, scriptPropsJson, hc]
    | some c =>
      simp [depsOf, parametersJson, scriptPropsJson, hc, stringifyParameters,
        h1, h2, h3]
  · intro old next hok hnk hd
    simp [rerunActions, hd, hok, hnk]

/-- Witness for the amended C6: a language change between two non-empty
key configurations triggers exactly one teardown and one injection, and
the callback-only change triggers none. -/
theorem restart_iff_serialized_deps_change_witness :
    rerunActions cfgImplicit cfgLangEn = [EffectAction.teardown, EffectAction.inject] ∧
    rerunActions cfgCb0 cfgCb1 = [] :=
  ⟨restart_iff_serialized_deps_change.2.2 cfgImplicit cfgLangEn
      (by decide) (by decide) (by decide),
   restart_iff_serialized_deps_change.1 cfgCb0 cfgCb1 (by decide)⟩

/-- Claim C7: the deferred value lives in a ref that the effect re-run
never replaces, so once it has resolved to null a full later
reconfiguration cycle — teardown, fresh setup with a valid key,
successful load and ready signal — leaves it resolved to null and every
`executeRecaptcha` of the same mount still rejects with the not-loaded
error. -/
theorem null_resolution_persists_across_reconfiguration
    (oldCfg cfg : Config) (g : GrecaptchaGlobal) (s : MountState)
    (a : Option String) (h : s.latch = .resolved none) :
    (rerunLoadedState oldCfg cfg g s).latch = .resolved none ∧
    executeRecaptcha (rerunLoadedState oldCfg cfg g s) a =
      some (.error notLoadedErrorMessage) := by
  have hclean : (effectCleanup oldCfg s).latch = .resolved none := by
    by_cases hk : oldCfg.reCaptchaKey = "" <;>
      simp [effectCleanup, cleanGoogleRecaptcha, hk, h]
  have hsetup : (effectSetup cfg (effectCleanup oldCfg s)).latch = .resolved none := by
    by_cases hk : cfg.reCaptchaKey = "" <;>
      simp [effectSetup, hk, hclean, LatchState.resolve]
  have hall : (rerunLoadedState oldCfg cfg g s).latch = .resolved none := by
    simp [rerunLoadedState, engineReady, onLoad, globalCallback, hsetup,
      LatchState.resolve]
  exact ⟨hall, by simp [executeRecaptcha, hall]⟩

/-- Witness for C7: a mount that resolved to null under an empty key,
then reconfigured to the valid implicit configuration with a working
engine, still rejects. -/
theorem null_resolution_persists_witness :
    (rerunLoadedState cfgEmpty cfgImplicit demoGlobal
        (effectSetup cfgEmpty (initState cfgEmpty))).latch = .resolved none ∧
    executeRecaptcha
        (rerunLoadedState cfgEmpty cfgImplicit demoGlobal
          (effectSetup cfgEmpty (initState cfgEmpty))) (some "login") =
      some (.error notLoadedErrorMessage) :=
  null_resolution_persists_across_reconfiguration cfgEmpty cfgImplicit demoGlobal
    (effectSetup cfgEmpty (initState cfgEmpty)) (some "login") rfl

end ReCaptcha
